import Mathlib

/-
Verification of the Student Skill Assistant backend (src/backend/server.py).

The backend is a FastAPI application.  The definitions below are a shallow
embedding of its pure logic: the static question and course tables, the quiz
scoring loop of `submit_test`, the level bucketing of
`map_percentage_to_level`, the per-track "latest result wins" fold of
`get_latest_levels_for_student`, the course filtering of
`get_recommendations`, the registration check of `register_student`, the
bearer-token gate of `get_current_student`, and the ordered route table of
the API router.  The document store (MongoDB via motor) is modelled by
explicit lists passed in and returned; `insert_one` appends to the list, and
a `find(...).sort(submitted_at, -1)` cursor is modelled as a list that the
store hands over sorted most-recent-first.  Python floats are modelled by
exact rationals; for the scores 0..10 with total 10 the binary64 arithmetic
of the source rounds to the exact value, so the rational model agrees with
the program there, while duplicate answers can inflate the score above 10,
where the stored float deviates from the exact ratio (score 11 stores
110.00000000000001): the theorems below therefore assert the exact
percentage relation only for duplicate-free submissions.
-/

set_option autoImplicit false

namespace SkillDev

/-- A full quiz question as stored in `WEBDEV_QUESTIONS_FULL` /
`ML_QUESTIONS_FULL`: id, prompt, four options and the correct option index. -/
structure Question where
  id : String
  question : String
  options : List String
  correctIndex : Nat
deriving DecidableEq, Repr

/-- The webdev question table (server.py, `WEBDEV_QUESTIONS_FULL`). -/
def WEBDEV_QUESTIONS_FULL : List Question := [
  ⟨"w1", "What does HTML stand for?",
    ["Hyper Trainer Marking Language", "Hyper Text Markup Language",
     "Hyper Text Marketing Language", "Hyperlinks Text Marking Language"], 1⟩,
  ⟨"w2", "Which HTML tag is used to include JavaScript code?",
    ["<javascript>", "<script>", "<js>", "<code>"], 1⟩,
  ⟨"w3", "Which CSS property controls text size?",
    ["font-style", "text-size", "font-size", "text-style"], 2⟩,
  ⟨"w4", "Which HTTP method is typically used to submit form data?",
    ["GET", "POST", "PUT", "DELETE"], 1⟩,
  ⟨"w5", "Which HTML element is used for the largest heading?",
    ["<head>", "<h6>", "<h1>", "<title>"], 2⟩,
  ⟨"w6", "Which CSS layout module is best for creating one-dimensional layouts (rows or columns)?",
    ["Grid", "Flexbox", "Float", "Positioning"], 1⟩,
  ⟨"w7", "In JavaScript, which keyword declares a block-scoped variable that can change?",
    ["var", "let", "const", "static"], 1⟩,
  ⟨"w8", "What does CSS stand for?",
    ["Computer Style Sheets", "Cascading Style Sheets",
     "Creative Style System", "Colorful Style Syntax"], 1⟩,
  ⟨"w9", "Which of these is a valid HTTP status code for \x27Not Found\x27?",
    ["200", "301", "404", "500"], 2⟩,
  ⟨"w10", "Which tag creates a hyperlink in HTML?",
    ["<a>", "<link>", "<href>", "<url>"], 0⟩]

/-- The machine-learning question table (server.py, `ML_QUESTIONS_FULL`). -/
def ML_QUESTIONS_FULL : List Question := [
  ⟨"m1", "What is Machine Learning?",
    ["Programming computers with explicit rules only",
     "A field where computers learn patterns from data",
     "Designing computer hardware",
     "Building websites with HTML and CSS"], 1⟩,
  ⟨"m2", "Which of the following is a supervised learning task?",
    ["Clustering customers by behavior",
     "Classifying emails as spam or not spam",
     "Finding topics in documents without labels",
     "Dimensionality reduction"], 1⟩,
  ⟨"m3", "In linear regression, what do we typically minimize during training?",
    ["Number of parameters",
     "Sum of squared errors between predictions and targets",
     "Number of data points",
     "Model accuracy"], 1⟩,
  ⟨"m4", "Which of these is an example of a classification algorithm?",
    ["K-Means", "Principal Component Analysis", "Logistic Regression",
     "K-Nearest Neighbors Regressor"], 2⟩,
  ⟨"m5", "What does \x27overfitting\x27 mean in ML?",
    ["Model is too simple and underperforms on both train and test",
     "Model performs well on train data but poorly on unseen test data",
     "Model has too few parameters",
     "Model cannot be trained at all"], 1⟩,
  ⟨"m6", "Which of these is commonly used for dimensionality reduction?",
    ["PCA", "SVM", "Random Forest", "Naive Bayes"], 0⟩,
  ⟨"m7", "What is a \x27feature\x27 in a dataset?",
    ["A row in the dataset",
     "A column representing an input variable",
     "The final prediction",
     "The loss function"], 1⟩,
  ⟨"m8", "Which library is widely used for building neural networks in Python?",
    ["NumPy", "Pandas", "Matplotlib", "PyTorch"], 3⟩,
  ⟨"m9", "What is \x27training data\x27?",
    ["Data used to evaluate model performance",
     "Data used to tune hyperparameters",
     "Data used to learn model parameters",
     "Random noise added to inputs"], 2⟩,
  ⟨"m10", "In classification, which metric measures the proportion of correct predictions?",
    ["Loss", "Accuracy", "Learning rate", "Epoch"], 1⟩]

/-- The public shape of a question (pydantic `QuestionPublic`): no
`correctIndex` field exists in this record. -/
structure QuestionPublic where
  id : String
  question : String
  options : List String
deriving DecidableEq, Repr

/-- Projection used in `get_test_questions`:
`QuestionPublic(id=q["id"], question=q["question"], options=q["options"])`. -/
def toPublic (q : Question) : QuestionPublic :=
  ⟨q.id, q.question, q.options⟩

/-- `WEBDEV_QUESTIONS_FULL if track == "webdev" else ML_QUESTIONS_FULL`
(used by both `get_test_questions` and `submit_test`). -/
def questions_for (track : String) : List Question :=
  if track = "webdev" then WEBDEV_QUESTIONS_FULL else ML_QUESTIONS_FULL

/-- Level bucketing (server.py `map_percentage_to_level`). -/
def map_percentage_to_level (percentage : ℚ) : String :=
  if percentage ≤ 40 then "Beginner"
  else if percentage ≤ 75 then "Intermediate"
  else "Advanced"

/-- An answer in a submission (pydantic `AnswerSubmission`): a question id and
a chosen option index (an unconstrained int). -/
structure AnswerSubmission where
  questionId : String
  optionIndex : Int
deriving DecidableEq, Repr

/-- Whether one submitted answer scores a point: the lookup
`question_map.get(ans.questionId)` (the dict over `questions_full`, whose ids
are distinct, so it is the first match) followed by
`ans.optionIndex == q["correctIndex"]`. -/
def answer_is_correct (qs : List Question) (a : AnswerSubmission) : Bool :=
  match qs.find? (fun q => q.id == a.questionId) with
  | none => false
  | some q => a.optionIndex == (q.correctIndex : Int)

/-- The scoring loop of `submit_test`: start from 0 and, for each answer in
submission order, skip it when its questionId is unknown and add 1 when the
chosen index equals the correct index. -/
def compute_score (qs : List Question) (answers : List AnswerSubmission) : Nat :=
  answers.foldl (fun score a =>
    match qs.find? (fun q => q.id == a.questionId) with
    | none => score
    | some q => if a.optionIndex == (q.correctIndex : Int) then score + 1 else score) 0

/-- `percentage = (score / total) * 100 if total > 0 else 0.0` from
`submit_test`, with the float arithmetic modelled exactly in ℚ.  For
0 ≤ score ≤ 10 with total 10 the source's binary64 computation rounds to
this exact value; for duplicate-inflated scores above 10 the stored float
can differ from it (score 11 stores 110.00000000000001), so theorems assert
the exact relation only in the duplicate-free range. -/
def quiz_percentage (score total : Nat) : ℚ :=
  if 0 < total then ((score : ℚ) / (total : ℚ)) * 100 else 0

/-- A raised `HTTPException`: status code, detail string, and the optional
value of the `WWW-Authenticate` response header. -/
structure HTTPError where
  statusCode : Nat
  detail : String
  wwwAuthenticate : Option String
deriving DecidableEq, Repr

/-- The single `credentials_exception` of `get_current_student`: 401,
"Could not validate credentials", with the challenge header
`WWW-Authenticate: Bearer`. -/
def credentials_exception : HTTPError :=
  ⟨401, "Could not validate credentials", some "Bearer"⟩

/-- A document of the `test_results` collection, as written by
`submit_test`.  The submission timestamp is modelled as a natural number. -/
structure QuizResultRow where
  student_id : String
  track : String
  score : Nat
  total : Nat
  percentage : ℚ
  level : String
  submitted_at : Nat
deriving DecidableEq, Repr

/-- The response body of `POST /api/tests/{track}` (pydantic
`TestResultResponse`). -/
structure TestResultResponse where
  track : String
  score : Nat
  total : Nat
  percentage : ℚ
  level : String
  message : String
deriving DecidableEq, Repr

/-- Round-half-to-even to an integer, the rounding Python `round` applies. -/
def roundHalfEven (x : ℚ) : ℤ :=
  let f : ℤ := ⌊x⌋
  if x - (f : ℚ) < 1/2 then f
  else if (1:ℚ)/2 < x - (f : ℚ) then f + 1
  else if f % 2 = 0 then f else f + 1

/-- `round(percentage, 2)` from `submit_test`, modelled on exact rationals. -/
def round2 (x : ℚ) : ℚ :=
  ((roundHalfEven (x * 100) : ℚ)) / 100

/-- The level-dependent message chosen at the end of `submit_test`. -/
def level_message (level : String) : String :=
  if level = "Beginner" then
    "You are at Beginner level. Focus on the basics and build strong foundations."
  else if level = "Intermediate" then
    "Nice work! You are at Intermediate level. Keep practicing and build projects."
  else
    "Great job! You are at Advanced level. Explore deeper topics and real-world applications."

/-- The document `submit_test` inserts into `test_results` for a submission:
the student id, the track, the score of the answers against that track, the
fixed total, the exact percentage, the bucketed level and the timestamp. -/
def submitted_row (sid track : String) (answers : List AnswerSubmission) (now : Nat) :
    QuizResultRow :=
  let qs := questions_for track
  let score := compute_score qs answers
  let total := qs.length
  let percentage := quiz_percentage score total
  ⟨sid, track, score, total, percentage, map_percentage_to_level percentage, now⟩

/-- `POST /api/tests/{track}` handler (`submit_test`): reject unknown tracks
with 404, otherwise score the answers, append one new row to the
`test_results` collection (`insert_one`) and return the result response with
the percentage rounded to two decimals. -/
def submit_test (track : String) (answers : List AnswerSubmission) (sid : String)
    (results : List QuizResultRow) (now : Nat) :
    Except HTTPError (TestResultResponse × List QuizResultRow) :=
  if ¬(track = "webdev" ∨ track = "ml") then
    Except.error ⟨404, "Unknown track", none⟩
  else
    let row := submitted_row sid track answers now
    Except.ok
      (⟨track, row.score, row.total, round2 row.percentage, row.level,
        level_message row.level⟩,
       results ++ [row])

/-- Per-track level summary (pydantic `TrackLevel`). -/
structure TrackLevel where
  level : Option String
  percentage : Option ℚ
deriving DecidableEq, Repr

/-- Response of `GET /api/tests/levels` (pydantic `LevelsResponse`):
an optional per-track entry for each of the two tracks. -/
structure LevelsResponse where
  webdev : Option TrackLevel
  ml : Option TrackLevel
deriving DecidableEq, Repr

/-- The `TrackLevel(level=doc.get("level"), percentage=doc.get("percentage"))`
constructed inside `get_latest_levels_for_student`. -/
def mk_track_level (r : QuizResultRow) : TrackLevel :=
  ⟨some r.level, some r.percentage⟩

/-- The dict-building loop of `get_latest_levels_for_student`: walk the
cursor in order and, for each document, skip it when its track is already a
key of the dict, otherwise add the track with that document's level and
percentage.  The Python dict is modelled as an association list to which new
keys are appended. -/
def build_levels (cursor : List QuizResultRow) : List (String × TrackLevel) :=
  cursor.foldl (fun acc doc =>
    if (List.lookup doc.track acc).isSome then acc
    else acc ++ [(doc.track, mk_track_level doc)]) []

/-- `get_latest_levels_for_student`: the cursor argument stands for
`db.test_results.find({student_id}).sort("submitted_at", -1)`, i.e. the
student's result rows as handed over by the store sorted most-recent-first;
the function keeps the first row per track and reads off the two tracks. -/
def get_latest_levels_for_student (cursor : List QuizResultRow) : LevelsResponse :=
  ⟨List.lookup "webdev" (build_levels cursor), List.lookup "ml" (build_levels cursor)⟩

/-- A course catalog entry (pydantic `Course`). -/
structure Course where
  id : String
  title : String
  platform : String
  url : String
  track : String
  difficulty : String
deriving DecidableEq, Repr

/-- The static course catalog (server.py `COURSES`), in declaration order. -/
def COURSES : List Course := [
  ⟨"c-w-b-1", "HTML & CSS Crash Course", "YouTube",
    "https://www.youtube.com/results?search_query=html+css+crash+course",
    "webdev", "Beginner"⟩,
  ⟨"c-w-b-2", "Web Development for Beginners", "freeCodeCamp",
    "https://www.freecodecamp.org/learn/", "webdev", "Beginner"⟩,
  ⟨"c-w-i-1", "Modern JavaScript Tutorial", "MDN / Docs",
    "https://developer.mozilla.org/en-US/docs/Web/JavaScript/Guide",
    "webdev", "Intermediate"⟩,
  ⟨"c-w-i-2", "React for Beginners", "Scrimba / YouTube",
    "https://www.youtube.com/results?search_query=react+js+for+beginners",
    "webdev", "Intermediate"⟩,
  ⟨"c-w-a-1", "Full-Stack Web Development Projects", "Udemy / Other",
    "https://www.udemy.com/topic/web-development/", "webdev", "Advanced"⟩,
  ⟨"c-w-a-2", "Web Performance Optimization", "Web.dev",
    "https://web.dev/fast/", "webdev", "Advanced"⟩,
  ⟨"c-m-b-1", "Machine Learning for Beginners", "YouTube",
    "https://www.youtube.com/results?search_query=machine+learning+for+beginners",
    "ml", "Beginner"⟩,
  ⟨"c-m-b-2", "Intro to ML with Python", "Kaggle / Courses",
    "https://www.kaggle.com/learn/intro-to-machine-learning", "ml", "Beginner"⟩,
  ⟨"c-m-i-1", "Supervised Machine Learning", "Coursera",
    "https://www.coursera.org/specializations/machine-learning-introduction",
    "ml", "Intermediate"⟩,
  ⟨"c-m-i-2", "Hands-On ML with Scikit-Learn", "Book / Online",
    "https://www.oreilly.com/library/view/hands-on-machine-learning/9781492032632/",
    "ml", "Intermediate"⟩,
  ⟨"c-m-a-1", "Deep Learning Specialization", "Coursera",
    "https://www.coursera.org/specializations/deep-learning", "ml", "Advanced"⟩,
  ⟨"c-m-a-2", "Advanced ML on Google Cloud", "Coursera",
    "https://www.coursera.org/specializations/advanced-machine-learning-tensorflow-gcp",
    "ml", "Advanced"⟩]

/-- The difficulty tier targeted by `filter_courses` inside
`get_recommendations`, i.e. `level.level if level and level.level else
"Beginner"`: Python truthiness makes a missing entry, a missing level field
and an empty level string all fall back to "Beginner". -/
def target_difficulty (level : Option TrackLevel) : String :=
  match level with
  | none => "Beginner"
  | some tl =>
    match tl.level with
    | none => "Beginner"
    | some l => if l = "" then "Beginner" else l

/-- The course filter inside `get_recommendations`: the list comprehension
over `COURSES` keeping the entries whose track and difficulty match. -/
def filter_courses (track : String) (level : Option TrackLevel) : List Course :=
  COURSES.filter (fun c => c.track == track && c.difficulty == target_difficulty level)

/-- Response of `GET /api/recommendations`. -/
structure RecommendationsResponse where
  webdev : List Course
  ml : List Course
deriving DecidableEq, Repr

/-- `GET /api/recommendations` handler: compute the current levels from the
student's result cursor and filter the catalog per track. -/
def get_recommendations (cursor : List QuizResultRow) : RecommendationsResponse :=
  let levels := get_latest_levels_for_student cursor
  ⟨filter_courses "webdev" levels.webdev, filter_courses "ml" levels.ml⟩

/-- A document of the `students` collection.  The Mongo `_id` is modelled as
its canonical lowercase 24-hex-digit string form, which is what
`str(ObjectId)` produces for every id handed out by the store;
`password_hash` is the bcrypt output of the external Password Hasher; the
creation timestamp is a natural number. -/
structure StudentDoc where
  id : String
  name : String
  email : String
  password_hash : String
  branch : String
  semester : String
  created_at : Nat
deriving DecidableEq, Repr

/-- Request body of `POST /api/auth/register` (pydantic `StudentRegister`). -/
structure StudentRegister where
  name : String
  email : String
  password : String
  branch : String
  semester : String
deriving DecidableEq, Repr

/-- Public view of a student (pydantic `StudentPublic`). -/
structure StudentPublic where
  id : String
  name : String
  email : String
  branch : String
  semester : String
deriving DecidableEq, Repr

/-- `get_student_by_email`: `db.students.find_one({"email": email})`,
modelled as the first list entry with that email. -/
def get_student_by_email (students : List StudentDoc) (email : String) :
    Option StudentDoc :=
  students.find? (fun s => s.email == email)

/-- Whether a string is accepted by the `ObjectId` constructor: exactly 24
hexadecimal digits.  `get_student_by_id` returns `None` when the constructor
raises on the string. -/
def isValidObjectId (s : String) : Bool :=
  s.length == 24 && s.data.all (fun c => c.isDigit ||
    (decide ('a' ≤ c) && decide (c ≤ 'f')) || (decide ('A' ≤ c) && decide (c ≤ 'F')))

/-- `get_student_by_id`: `ObjectId(student_id)` inside try/except returning
`None` on a malformed id, then `db.students.find_one({"_id": oid})`.
`ObjectId` parses its 24 hex digits case-insensitively and `find_one`
compares the parsed bytes against the stored `_id`, so the byte comparison
is modelled by normalising the looked-up id to lowercase and comparing it
with the canonical lowercase stored id. -/
def get_student_by_id (students : List StudentDoc) (student_id : String) :
    Option StudentDoc :=
  if isValidObjectId student_id then
    students.find? (fun s => s.id == student_id.toLower)
  else none

/-- `POST /api/auth/register` handler (`register_student`): reject an
already-registered email with 400 and leave the collection unchanged,
otherwise insert one new student document and return its public view.  The
fresh `_id` chosen by the store and the bcrypt hash of the password are
passed in (`newId`, `password_hash`), as is the creation time. -/
def register_student (payload : StudentRegister) (students : List StudentDoc)
    (newId password_hash : String) (now : Nat) :
    Except HTTPError StudentPublic × List StudentDoc :=
  match get_student_by_email students payload.email with
  | some _ => (Except.error ⟨400, "Email already registered", none⟩, students)
  | none =>
    let doc : StudentDoc :=
      ⟨newId, payload.name, payload.email, password_hash, payload.branch,
       payload.semester, now⟩
    (Except.ok ⟨newId, payload.name, payload.email, payload.branch, payload.semester⟩,
     students ++ [doc])

/-- The claims-relevant JWT payload fields read by `get_current_student`:
`payload.get("sub")` and `payload.get("email")`, each possibly absent. -/
structure JwtPayload where
  sub : Option String
  email : Option String
deriving DecidableEq, Repr

/-- A bearer token as seen by the validator: its payload, its absolute
expiry, and the secret that produced its signature. -/
structure Token where
  payload : JwtPayload
  exp : Nat
  signedWith : String
deriving DecidableEq, Repr

/-- Outcome of `jose.jwt.decode`: every failure is a `JWTError`. -/
inductive JwtOutcome where
  | jwtError
  | decoded (payload : JwtPayload)
deriving DecidableEq, Repr

/-- Modelled from the spec: `jose.jwt.decode(token, JWT_SECRET,
algorithms=[JWT_ALGORITHM])` is library code outside this repository; per the
spec's Token Issuer/Validator contract it verifies the signature against the
shared secret and the expiry against the current time, and any signature
mismatch or expiry in the past raises `JWTError`. -/
def jwt_decode (token : Token) (secret : String) (now : Nat) : JwtOutcome :=
  if token.signedWith ≠ secret then JwtOutcome.jwtError
  else if token.exp < now then JwtOutcome.jwtError
  else JwtOutcome.decoded token.payload

/-- The plain 500 response FastAPI's error middleware produces for an
exception that no handler catches: not an `HTTPException` of the handler,
and no challenge header. -/
def internal_server_error : HTTPError :=
  ⟨500, "Internal Server Error", none⟩

/-- The authentication gate `get_current_student`: decode the token (any
`JWTError` yields the single `credentials_exception`), require both the `sub`
and `email` payload fields, construct `TokenData(sub=subject, email=email)`
whose `EmailStr` field validates the email, then look the subject up in the
students collection; an unknown or malformed subject id yields the same
`credentials_exception`.  The language accepted by pydantic's `EmailStr` is
third-party library behaviour, so it is the parameter `emailOk`; a failing
validation raises a pydantic `ValidationError`, which the `except JWTError`
clause does not catch, so it escapes the handler and surfaces as the plain
500 response. -/
def get_current_student (emailOk : String → Bool) (token : Token)
    (secret : String) (now : Nat) (students : List StudentDoc) :
    Except HTTPError StudentDoc :=
  match jwt_decode token secret now with
  | JwtOutcome.jwtError => Except.error credentials_exception
  | JwtOutcome.decoded payload =>
    match payload.sub, payload.email with
    | some subject, some email =>
      if emailOk email then
        match get_student_by_id students subject with
        | none => Except.error credentials_exception
        | some student => Except.ok student
      else Except.error internal_server_error
    | _, _ => Except.error credentials_exception

/-- `GET /api/tests/{track}` handler (`get_test_questions`), after the
authentication dependency has succeeded: 404 on an unknown track, otherwise
the track together with the public projections of its questions. -/
def get_test_questions (track : String) :
    Except HTTPError (String × List QuestionPublic) :=
  if ¬(track = "webdev" ∨ track = "ml") then
    Except.error ⟨404, "Unknown track", none⟩
  else
    Except.ok (track, (questions_for track).map toPublic)

/-- A segment of a route path: a literal, or a `{name}` path parameter that
captures exactly one path segment. -/
inductive Seg where
  | lit (s : String)
  | param (name : String)
deriving DecidableEq, Repr

/-- Names for the GET endpoints of the router, in the order the source
registers them. -/
inductive GetHandler where
  | root
  | statusList
  | testQuestions
  | levels
  | recommendations
  | docs
deriving DecidableEq, Repr

/-- The GET route table of the API router in registration order (the order
of the decorators in server.py): `/api/`, `/api/status`,
`/api/tests/{track}`, `/api/tests/levels`, `/api/recommendations`,
`/api/docs`.  Note `/api/tests/{track}` is registered before
`/api/tests/levels`. -/
def GET_ROUTES : List (GetHandler × List Seg) := [
  (GetHandler.root, [Seg.lit "api"]),
  (GetHandler.statusList, [Seg.lit "api", Seg.lit "status"]),
  (GetHandler.testQuestions, [Seg.lit "api", Seg.lit "tests", Seg.param "track"]),
  (GetHandler.levels, [Seg.lit "api", Seg.lit "tests", Seg.lit "levels"]),
  (GetHandler.recommendations, [Seg.lit "api", Seg.lit "recommendations"]),
  (GetHandler.docs, [Seg.lit "api", Seg.lit "docs"])]

/-- Match a route pattern against a concrete path, returning the path
parameter bindings; a `{name}` parameter (default `str` converter) matches
exactly one segment. -/
def matchSegs : List Seg → List String → Option (List (String × String))
  | [], [] => some []
  | Seg.lit s :: ps, x :: xs => if s = x then matchSegs ps xs else none
  | Seg.param n :: ps, x :: xs => (matchSegs ps xs).map (fun bs => (n, x) :: bs)
  | _, _ => none

/-- Starlette request dispatch for GET: the first route in registration
order whose pattern matches the path wins. -/
def dispatchGet (path : List String) : Option (GetHandler × List (String × String)) :=
  GET_ROUTES.findSome? (fun route => (matchSegs route.2 path).map (fun bs => (route.1, bs)))

end SkillDev

namespace SkillDev

theorem compute_score_eq_countP (qs : List Question) (answers : List AnswerSubmission) :
    compute_score qs answers = answers.countP (answer_is_correct qs) := by
  have aux : ∀ (l : List AnswerSubmission) (n : Nat),
      List.foldl (fun score a =>
        match qs.find? (fun q => q.id == a.questionId) with
        | none => score
        | some q => if a.optionIndex == (q.correctIndex : Int) then score + 1
          else score) n l =
      n + l.countP (answer_is_correct qs) := by
    intro l
    induction l with
    | nil => intro n; simp
    | cons a rest ih =>
      intro n
      simp only [List.foldl_cons, List.countP_cons, ih]
      unfold answer_is_correct
      cases h : qs.find? (fun q => q.id == a.questionId) with
      | none => simp [h]
      | some q =>
        simp only [h]
        by_cases hc : a.optionIndex == (q.correctIndex : Int)
        · simp [hc]; omega
        · simp [hc]
  simpa [compute_score] using aux answers 0

theorem questions_for_ids_nodup (track : String) :
    ((questions_for track).map (fun q => q.id)).Nodup := by
  unfold questions_for
  split <;> decide

theorem score_le_of_nodup (qs : List Question) (answers : List AnswerSubmission)
    (h : (answers.map (fun a => a.questionId)).Nodup) :
    compute_score qs answers ≤ qs.length := by
  rw [compute_score_eq_countP, List.countP_eq_length_filter]
  have hsub : List.Sublist
      ((answers.filter (answer_is_correct qs)).map (fun a => a.questionId))
      (answers.map (fun a => a.questionId)) :=
    (List.filter_sublist answers).map _
  have hnd : ((answers.filter (answer_is_correct qs)).map
      (fun a => a.questionId)).Nodup := h.sublist hsub
  have hsubset : ((answers.filter (answer_is_correct qs)).map
      (fun a => a.questionId)) ⊆ qs.map (fun q => q.id) := by
    intro x hx
    obtain ⟨a, ha, rfl⟩ := List.mem_map.mp hx
    have hpa : answer_is_correct qs a = true := (List.mem_filter.mp ha).2
    unfold answer_is_correct at hpa
    cases hfind : qs.find? (fun q => q.id == a.questionId) with
    | none => rw [hfind] at hpa; simp at hpa
    | some q =>
      have hq : q ∈ qs := List.mem_of_find?_eq_some hfind
      have hid := List.find?_some hfind
      exact List.mem_map.mpr ⟨q, hq, eq_of_beq (by simpa using hid)⟩
  have hlen := (List.subperm_of_subset hnd hsubset).length_le
  simpa using hlen

end SkillDev

namespace SkillDev

/-- Claim C2 counterexample: submitting the same correct answer eleven times
on the webdev track yields score 11, which exceeds the fixed total of 10, so
the score is not bounded by the total for answer lists that repeat a
questionId. -/
theorem claim2_score_can_exceed_total :
    compute_score (questions_for "webdev") (List.replicate 11 ⟨"w1", 1⟩) = 11 ∧
    (questions_for "webdev").length = 10 ∧
    (submitted_row "s1" "webdev" (List.replicate 11 ⟨"w1", 1⟩) 0).score = 11 ∧
    (submitted_row "s1" "webdev" (List.replicate 11 ⟨"w1", 1⟩) 0).total = 10 ∧
    ¬(11 ≤ 10) := by
  refine ⟨by decide, by decide, by decide, by decide, by decide⟩

/-- Claim C2 (amended): the computed score equals the number of submitted
answers matching a question's correct option, so it is an integer between 0
and the number of submitted answers, with the total fixed at 10; and when
the submitted answers have pairwise distinct questionIds (so the score stays
in 0..10, the range where the source's float arithmetic is exact) the score
never exceeds the total of 10 and the persisted row satisfies
percentage = score/total × 100 exactly. -/
theorem claim2_amended_score_bounds (track sid : String)
    (answers : List AnswerSubmission) (now : Nat)
    (htrack : track = "webdev" ∨ track = "ml") :
    compute_score (questions_for track) answers ≤ answers.length ∧
    (submitted_row sid track answers now).total = 10 ∧
    ((answers.map (fun a => a.questionId)).Nodup →
      compute_score (questions_for track) answers ≤ 10 ∧
      (submitted_row sid track answers now).percentage =
        ((submitted_row sid track answers now).score : ℚ) /
          ((submitted_row sid track answers now).total : ℚ) * 100) := by
  have h10 : (questions_for track).length = 10 := by
    rcases htrack with h | h <;> subst h <;> decide
  refine ⟨?_, ?_, ?_⟩
  · rw [compute_score_eq_countP]
    exact List.countP_le_length _
  · simpa [submitted_row] using h10
  · intro hnd
    have hle := score_le_of_nodup (questions_for track) answers hnd
    refine ⟨by omega, ?_⟩
    simp only [submitted_row, quiz_percentage, h10]
    norm_num

/-- Concrete instance of the amended claim C2 at a duplicate-free webdev
submission. -/
theorem claim2_amended_score_bounds_check :
    (submitted_row "s1" "webdev" [⟨"w1", 1⟩, ⟨"w2", 0⟩] 0).total = 10 ∧
    compute_score (questions_for "webdev") [⟨"w1", 1⟩, ⟨"w2", 0⟩] ≤ 10 := by
  have h := claim2_amended_score_bounds "webdev" "s1" [⟨"w1", 1⟩, ⟨"w2", 0⟩] 0
    (Or.inl rfl)
  exact ⟨h.2.1, (h.2.2 (by decide)).1⟩

end SkillDev

namespace SkillDev

/-- Claim C3: level bucketing is a deterministic threshold function of the
exact percentage: at most 40 gives Beginner, above 40 up to 75 gives
Intermediate, above 75 gives Advanced; with total 10 the percentage is
score × 10; and the boundary points 40, 40.01, 75 and 75.01 bucket to
Beginner, Intermediate, Intermediate and Advanced respectively. -/
theorem claim3_level_bucketing (p : ℚ) (score : Nat) :
    (p ≤ 40 → map_percentage_to_level p = "Beginner") ∧
    (40 < p ∧ p ≤ 75 → map_percentage_to_level p = "Intermediate") ∧
    (75 < p → map_percentage_to_level p = "Advanced") ∧
    quiz_percentage score 10 = (score : ℚ) * 10 ∧
    map_percentage_to_level 40 = "Beginner" ∧
    map_percentage_to_level (4001/100) = "Intermediate" ∧
    map_percentage_to_level 75 = "Intermediate" ∧
    map_percentage_to_level (7501/100) = "Advanced" := by
  refine ⟨?_, ?_, ?_, ?_, ?_, ?_, ?_, ?_⟩
  · intro h
    simp [map_percentage_to_level, h]
  · rintro ⟨h1, h2⟩
    rw [map_percentage_to_level, if_neg (by linarith), if_pos h2]
  · intro h
    rw [map_percentage_to_level, if_neg (by linarith), if_neg (by linarith)]
  · rw [quiz_percentage, if_pos (by norm_num)]
    push_cast
    ring
  · norm_num [map_percentage_to_level]
  · norm_num [map_percentage_to_level]
  · norm_num [map_percentage_to_level]
  · norm_num [map_percentage_to_level]

/-- Concrete instances of claim C3: percentages 30, 50 and 80 bucket to the
three levels. -/
theorem claim3_level_bucketing_check :
    map_percentage_to_level 30 = "Beginner" ∧
    map_percentage_to_level 50 = "Intermediate" ∧
    map_percentage_to_level 80 = "Advanced" :=
  ⟨(claim3_level_bucketing 30 3).1 (by norm_num),
   (claim3_level_bucketing 50 5).2.1 ⟨by norm_num, by norm_num⟩,
   (claim3_level_bucketing 80 8).2.2.1 (by norm_num)⟩

/-- Claim C6: the score is the count of correct matches, hence independent
of answer order (invariant under permutation) and monotonic in the number of
correct matches; and every submission appends one new immutable row to the
result collection, so resubmitting identical answers yields two distinct
rows while all previously persisted rows are kept unchanged. -/
theorem claim6_score_algebra (track sid : String)
    (answers answers2 : List AnswerSubmission) (results : List QuizResultRow)
    (t1 t2 : Nat) (hperm : answers.Perm answers2)
    (htrack : track = "webdev" ∨ track = "ml") (hts : t1 ≠ t2) :
    compute_score (questions_for track) answers =
      compute_score (questions_for track) answers2 ∧
    compute_score (questions_for track) answers =
      answers.countP (answer_is_correct (questions_for track)) ∧
    (∀ others : List AnswerSubmission,
      others.countP (answer_is_correct (questions_for track)) ≤
        answers.countP (answer_is_correct (questions_for track)) →
      compute_score (questions_for track) others ≤
        compute_score (questions_for track) answers) ∧
    (∃ resp1 resp2,
      submit_test track answers sid results t1 =
        Except.ok (resp1, results ++ [submitted_row sid track answers t1]) ∧
      submit_test track answers sid
          (results ++ [submitted_row sid track answers t1]) t2 =
        Except.ok (resp2,
          (results ++ [submitted_row sid track answers t1]) ++
            [submitted_row sid track answers t2])) ∧
    submitted_row sid track answers t1 ≠ submitted_row sid track answers t2 := by
  refine ⟨?_, compute_score_eq_countP _ _, ?_, ?_, ?_⟩
  · rw [compute_score_eq_countP, compute_score_eq_countP]
    exact hperm.countP_eq _
  · intro others hle
    rw [compute_score_eq_countP, compute_score_eq_countP]
    exact hle
  · refine ⟨⟨track, (submitted_row sid track answers t1).score,
        (submitted_row sid track answers t1).total,
        round2 (submitted_row sid track answers t1).percentage,
        (submitted_row sid track answers t1).level,
        level_message (submitted_row sid track answers t1).level⟩,
      ⟨track, (submitted_row sid track answers t2).score,
        (submitted_row sid track answers t2).total,
        round2 (submitted_row sid track answers t2).percentage,
        (submitted_row sid track answers t2).level,
        level_message (submitted_row sid track answers t2).level⟩, ?_, ?_⟩ <;>
      · rw [submit_test, if_neg (not_not_intro htrack)]
  · intro h
    exact hts (congrArg QuizResultRow.submitted_at h)

/-- Concrete instance of claim C6: swapping two answers leaves the webdev
score unchanged. -/
theorem claim6_score_algebra_check :
    compute_score (questions_for "webdev") [⟨"w1", 1⟩, ⟨"w2", 1⟩] =
      compute_score (questions_for "webdev") [⟨"w2", 1⟩, ⟨"w1", 1⟩] :=
  (claim6_score_algebra "webdev" "s1" [⟨"w1", 1⟩, ⟨"w2", 1⟩]
    [⟨"w2", 1⟩, ⟨"w1", 1⟩] [] 0 1 (by decide) (Or.inl rfl) (by decide)).1

end SkillDev

namespace SkillDev

/-- First-defined-wins choice on options, the semantics of "skip when the
key is already present". -/
def orOpt {α : Type} (x y : Option α) : Option α :=
  match x with
  | some v => some v
  | none => y

theorem orOpt_none_right {α : Type} (x : Option α) : orOpt x none = x := by
  cases x <;> rfl

theorem orOpt_assoc {α : Type} (x y z : Option α) :
    orOpt (orOpt x y) z = orOpt x (orOpt y z) := by
  cases x <;> rfl

theorem lookup_append_pair (l : List (String × TrackLevel)) (k t : String)
    (v : TrackLevel) :
    List.lookup t (l ++ [(k, v)]) =
      orOpt (List.lookup t l) (if t == k then some v else none) := by
  induction l with
  | nil =>
    cases h : t == k <;> simp [List.lookup, h, orOpt]
  | cons hd tl ih =>
    obtain ⟨k2, v2⟩ := hd
    cases h : t == k2 <;> simp [List.lookup, h, ih, orOpt]

theorem build_levels_lookup_aux (t : String) :
    ∀ (cursor : List QuizResultRow) (acc : List (String × TrackLevel)),
      List.lookup t (cursor.foldl (fun acc2 doc =>
        if (List.lookup doc.track acc2).isSome then acc2
        else acc2 ++ [(doc.track, mk_track_level doc)]) acc) =
      orOpt (List.lookup t acc)
        ((cursor.find? (fun r => r.track == t)).map mk_track_level) := by
  intro cursor
  induction cursor with
  | nil => intro acc; simp [orOpt_none_right]
  | cons d rest ih =>
    intro acc
    simp only [List.foldl_cons]
    rw [ih, List.find?_cons]
    by_cases hmem : (List.lookup d.track acc).isSome
    · rw [if_pos hmem]
      cases ht : d.track == t with
      | true =>
        have heq : d.track = t := eq_of_beq ht
        obtain ⟨v, hv⟩ := Option.isSome_iff_exists.mp hmem
        rw [← heq, hv]
        rfl
      | false => rfl
    · rw [if_neg hmem, lookup_append_pair, orOpt_assoc]
      cases ht : d.track == t with
      | true =>
        have heq : t = d.track := (eq_of_beq ht).symm
        rw [if_pos (beq_iff_eq.mpr heq)]
        rfl
      | false =>
        rw [if_neg (by simp [beq_iff_eq]; exact fun h => by simp [h, beq_iff_eq] at ht)]
        rfl

theorem build_levels_lookup (cursor : List QuizResultRow) (t : String) :
    List.lookup t (build_levels cursor) =
      (cursor.find? (fun r => r.track == t)).map mk_track_level := by
  have h := build_levels_lookup_aux t cursor []
  simpa [build_levels, orOpt] using h

theorem find?_sorted_is_max (p : QuizResultRow → Bool) :
    ∀ (l : List QuizResultRow),
      l.Pairwise (fun a b => b.submitted_at ≤ a.submitted_at) →
      ∀ r, l.find? p = some r →
      ∀ r2 ∈ l, p r2 = true → r2.submitted_at ≤ r.submitted_at := by
  intro l
  induction l with
  | nil => intro _ r hf; cases hf
  | cons d rest ih =>
    intro hs r hf r2 hr2 hp2
    obtain ⟨hd, htail⟩ := List.pairwise_cons.mp hs
    rw [List.find?_cons] at hf
    cases hpd : p d with
    | true =>
      rw [hpd] at hf
      have hdr : some d = some r := hf
      obtain rfl : d = r := by injection hdr
      rcases List.mem_cons.mp hr2 with h | h
      · subst h; exact le_refl _
      · exact hd r2 h
    | false =>
      rw [hpd] at hf
      rcases List.mem_cons.mp hr2 with h | h
      · subst h; rw [hpd] at hp2; cases hp2
      · exact ih htail r hf r2 h hp2

end SkillDev

namespace SkillDev

/-- Claim C4: over a cursor of the student's result rows ordered
most-recent-first, the levels response holds, per track, exactly the level
and percentage of the first row encountered for that track; that row is a
chronologically latest submission for the track; and a track with no
submitted result is absent from the response. -/
theorem claim4_latest_levels (cursor : List QuizResultRow)
    (hsorted : cursor.Pairwise (fun a b => b.submitted_at ≤ a.submitted_at)) :
    ((get_latest_levels_for_student cursor).webdev =
      (cursor.find? (fun r => r.track == "webdev")).map mk_track_level) ∧
    ((get_latest_levels_for_student cursor).ml =
      (cursor.find? (fun r => r.track == "ml")).map mk_track_level) ∧
    (∀ t r, cursor.find? (fun r2 => r2.track == t) = some r →
      r.track = t ∧ r ∈ cursor ∧
      ∀ r2 ∈ cursor, r2.track = t → r2.submitted_at ≤ r.submitted_at) ∧
    ((get_latest_levels_for_student cursor).webdev = none ↔
      ∀ r ∈ cursor, r.track ≠ "webdev") ∧
    ((get_latest_levels_for_student cursor).ml = none ↔
      ∀ r ∈ cursor, r.track ≠ "ml") := by
  have hweb : (get_latest_levels_for_student cursor).webdev =
      (cursor.find? (fun r => r.track == "webdev")).map mk_track_level :=
    build_levels_lookup cursor "webdev"
  have hml : (get_latest_levels_for_student cursor).ml =
      (cursor.find? (fun r => r.track == "ml")).map mk_track_level :=
    build_levels_lookup cursor "ml"
  have habsent : ∀ t : String,
      ((cursor.find? (fun r => r.track == t)).map mk_track_level = none ↔
        ∀ r ∈ cursor, r.track ≠ t) := by
    intro t
    rw [Option.map_eq_none', List.find?_eq_none]
    constructor
    · intro h r hr
      have := h r hr
      simpa [beq_iff_eq] using this
    · intro h r hr
      simpa [beq_iff_eq] using h r hr
  refine ⟨hweb, hml, ?_, ?_, ?_⟩
  · intro t r hf
    have hpr := List.find?_some hf
    refine ⟨eq_of_beq (by simpa using hpr), List.mem_of_find?_eq_some hf, ?_⟩
    intro r2 hr2 ht2
    exact find?_sorted_is_max _ cursor hsorted r hf r2 hr2 (by simp [beq_iff_eq, ht2])
  · rw [hweb]; exact habsent "webdev"
  · rw [hml]; exact habsent "ml"

/-- Concrete instance of claim C4: with an Advanced webdev row at time 5 and
a Beginner webdev row at time 3, the response reports the time-5 row for
webdev and omits ml. -/
theorem claim4_latest_levels_check :
    (get_latest_levels_for_student
      [⟨"s", "webdev", 10, 10, 100, "Advanced", 5⟩,
       ⟨"s", "webdev", 2, 10, 20, "Beginner", 3⟩]).webdev =
      some ⟨some "Advanced", some 100⟩ ∧
    (get_latest_levels_for_student
      [⟨"s", "webdev", 10, 10, 100, "Advanced", 5⟩,
       ⟨"s", "webdev", 2, 10, 20, "Beginner", 3⟩]).ml = none := by
  have h := claim4_latest_levels
    [⟨"s", "webdev", 10, 10, 100, "Advanced", 5⟩,
     ⟨"s", "webdev", 2, 10, 20, "Beginner", 3⟩]
    (by simp [List.pairwise_cons])
  exact ⟨h.1.trans rfl, h.2.1.trans rfl⟩

end SkillDev

namespace SkillDev

theorem map_percentage_to_level_ne_empty (p : ℚ) :
    map_percentage_to_level p ≠ "" := by
  unfold map_percentage_to_level
  split_ifs <;> decide

/-- Claim C5: for each track the recommendation filter keeps exactly the
catalog courses whose track matches and whose difficulty equals the target
tier; the target tier is the student's current level for the track and falls
back to Beginner when no level is recorded; the result is a sublist of the
catalog, so declaration order is preserved. -/
theorem claim5_recommendation_filter (track : String) (level : Option TrackLevel)
    (c : Course) :
    List.Sublist (filter_courses track level) COURSES ∧
    (c ∈ filter_courses track level ↔
      c ∈ COURSES ∧ c.track = track ∧ c.difficulty = target_difficulty level) ∧
    target_difficulty none = "Beginner" ∧
    (∀ pc : Option ℚ, target_difficulty (some ⟨none, pc⟩) = "Beginner") ∧
    (∀ (p : ℚ) (pc : Option ℚ),
      target_difficulty (some ⟨some (map_percentage_to_level p), pc⟩) =
        map_percentage_to_level p) ∧
    (∀ cursor : List QuizResultRow,
      get_recommendations cursor =
        ⟨filter_courses "webdev" (get_latest_levels_for_student cursor).webdev,
         filter_courses "ml" (get_latest_levels_for_student cursor).ml⟩) := by
  refine ⟨List.filter_sublist COURSES, ?_, rfl, fun pc => rfl, ?_, fun cursor => rfl⟩
  · simp [filter_courses, List.mem_filter, Bool.and_eq_true, beq_iff_eq, and_assoc]
  · intro p pc
    simp only [target_difficulty]
    rw [if_neg (map_percentage_to_level_ne_empty p)]

/-- Concrete instance of claim C5: with no recorded level, the webdev
recommendations are exactly the two Beginner webdev catalog entries. -/
theorem claim5_recommendation_filter_check :
    filter_courses "webdev" none =
      [⟨"c-w-b-1", "HTML & CSS Crash Course", "YouTube",
        "https://www.youtube.com/results?search_query=html+css+crash+course",
        "webdev", "Beginner"⟩,
       ⟨"c-w-b-2", "Web Development for Beginners", "freeCodeCamp",
        "https://www.freecodecamp.org/learn/", "webdev", "Beginner"⟩] := by
  have h := claim5_recommendation_filter "webdev" none
    ⟨"c-w-b-1", "HTML & CSS Crash Course", "YouTube",
     "https://www.youtube.com/results?search_query=html+css+crash+course",
     "webdev", "Beginner"⟩
  have hmem : (⟨"c-w-b-1", "HTML & CSS Crash Course", "YouTube",
      "https://www.youtube.com/results?search_query=html+css+crash+course",
      "webdev", "Beginner"⟩ : Course) ∈ filter_courses "webdev" none :=
    h.2.1.mpr ⟨by decide, rfl, by decide⟩
  revert hmem
  decide

/-- Claim C7: a token signed with a different secret, a token whose expiry
is in the past, and a token missing the sub or the email payload field are
all rejected with the same unauthenticated outcome: the single
credentials_exception, a 401 carrying the WWW-Authenticate Bearer challenge
header and no further detail.  All four cases reject before the TokenData
construction, so the outcome holds for every email validator. -/
theorem claim7_token_validation_rejects (emailOk : String → Bool)
    (token : Token) (secret : String)
    (now : Nat) (students : List StudentDoc)
    (hbad : token.signedWith ≠ secret ∨ token.exp < now ∨
      token.payload.sub = none ∨ token.payload.email = none) :
    get_current_student emailOk token secret now students =
      Except.error credentials_exception ∧
    credentials_exception.statusCode = 401 ∧
    credentials_exception.wwwAuthenticate = some "Bearer" := by
  refine ⟨?_, rfl, rfl⟩
  unfold get_current_student jwt_decode
  rcases hbad with h | h | h | h
  · rw [if_pos h]
  · by_cases hs : token.signedWith ≠ secret
    · rw [if_pos hs]
    · rw [if_neg hs, if_pos h]
  · by_cases hs : token.signedWith ≠ secret
    · rw [if_pos hs]
    · rw [if_neg hs]
      by_cases he : token.exp < now
      · rw [if_pos he]
      · rw [if_neg he]
        simp only [h]
  · by_cases hs : token.signedWith ≠ secret
    · rw [if_pos hs]
    · rw [if_neg hs]
      by_cases he : token.exp < now
      · rw [if_pos he]
      · rw [if_neg he]
        cases hsub : token.payload.sub <;> simp only [h, hsub]

/-- Concrete instance of claim C7: a token signed with the wrong secret is
rejected with the credentials exception. -/
theorem claim7_token_validation_rejects_check :
    get_current_student (fun e => e == "a@x.com")
      ⟨⟨some "s", some "e"⟩, 10, "wrong"⟩ "right" 0 [] =
      Except.error credentials_exception :=
  (claim7_token_validation_rejects (fun e => e == "a@x.com")
    ⟨⟨some "s", some "e"⟩, 10, "wrong"⟩ "right" 0 []
    (Or.inl (by decide))).1

/-- Claim C8: registering an email that is already present in the students
collection fails with a 400 conflict error and leaves the collection
unchanged: no second student record is created. -/
theorem claim8_duplicate_email_conflict (payload : StudentRegister)
    (students : List StudentDoc) (newId password_hash : String) (now : Nat)
    (hdup : ∃ s ∈ students, s.email = payload.email) :
    register_student payload students newId password_hash now =
      (Except.error ⟨400, "Email already registered", none⟩, students) := by
  obtain ⟨s, hs, he⟩ := hdup
  have hfound : (get_student_by_email students payload.email).isSome := by
    unfold get_student_by_email
    rw [List.find?_isSome]
    exact ⟨s, hs, by simpa using beq_iff_eq.mpr he⟩
  unfold register_student
  cases hfind : get_student_by_email students payload.email with
  | none => rw [hfind] at hfound; cases hfound
  | some s2 => rfl

/-- Concrete instance of claim C8: a second registration with an existing
email is rejected and the collection is returned unchanged. -/
theorem claim8_duplicate_email_conflict_check :
    register_student ⟨"B", "a@x.com", "pw", "CSE", "5"⟩
      [⟨"5f5f5f5f5f5f5f5f5f5f5f5f", "A", "a@x.com", "h", "CSE", "5", 0⟩]
      "6a6a6a6a6a6a6a6a6a6a6a6a" "h2" 1 =
    (Except.error ⟨400, "Email already registered", none⟩,
      [⟨"5f5f5f5f5f5f5f5f5f5f5f5f", "A", "a@x.com", "h", "CSE", "5", 0⟩]) :=
  claim8_duplicate_email_conflict ⟨"B", "a@x.com", "pw", "CSE", "5"⟩
    [⟨"5f5f5f5f5f5f5f5f5f5f5f5f", "A", "a@x.com", "h", "CSE", "5", 0⟩]
    "6a6a6a6a6a6a6a6a6a6a6a6a" "h2" 1
    ⟨⟨"5f5f5f5f5f5f5f5f5f5f5f5f", "A", "a@x.com", "h", "CSE", "5", 0⟩,
      by decide, rfl⟩

end SkillDev

namespace SkillDev

/-- Claim C9: for each valid track the questions listing succeeds and
returns exactly the 10 public projections of the track's questions in fixed
order, each with a nonempty id, a nonempty prompt and exactly 4 options; the
public projection carries only the id, prompt and options fields, so no
correct-answer index appears anywhere in the returned data. -/
theorem claim9_list_questions_shape (track : String)
    (htrack : track = "webdev" ∨ track = "ml") :
    get_test_questions track =
      Except.ok (track, (questions_for track).map toPublic) ∧
    ((questions_for track).map toPublic).length = 10 ∧
    (∀ q ∈ (questions_for track).map toPublic,
      q.options.length = 4 ∧ q.id ≠ "" ∧ q.question ≠ "") ∧
    (∀ q : Question, toPublic q = ⟨q.id, q.question, q.options⟩) := by
  refine ⟨?_, ?_, ?_, fun q => rfl⟩
  · rw [get_test_questions, if_neg (not_not_intro htrack)]
  · rcases htrack with h | h <;> subst h <;> decide
  · rcases htrack with h | h <;> subst h <;> decide

/-- Concrete instance of claim C9: the webdev listing returns 10 public
questions. -/
theorem claim9_list_questions_shape_check :
    get_test_questions "webdev" =
      Except.ok ("webdev", (questions_for "webdev").map toPublic) ∧
    ((questions_for "webdev").map toPublic).length = 10 :=
  ⟨(claim9_list_questions_shape "webdev" (Or.inl rfl)).1,
   (claim9_list_questions_shape "webdev" (Or.inl rfl)).2.1⟩

/-- Claim C10: a correctly signed, unexpired token carrying both payload
fields, whose email passes the TokenData field validation and whose subject
is not the id of any stored student — the subject is either not a
well-formed 24-hex-digit object id at all, or its case-normalised form
matches no stored id — is rejected with the same credentials_exception as
an invalid token.  (A failing email validation instead escapes as an
uncaught ValidationError, i.e. the plain 500, which is outside this claim's
scope and distinct from the 401.) -/
theorem claim10_unknown_subject_rejected (emailOk : String → Bool)
    (token : Token) (secret : String)
    (now : Nat) (students : List StudentDoc) (sid email : String)
    (hsig : token.signedWith = secret) (hexp : ¬ token.exp < now)
    (hsub : token.payload.sub = some sid)
    (hemail : token.payload.email = some email)
    (hvalid : emailOk email = true)
    (hmiss : isValidObjectId sid = false ∨ ∀ s ∈ students, s.id ≠ sid.toLower) :
    get_current_student emailOk token secret now students =
      Except.error credentials_exception := by
  have hnone : get_student_by_id students sid = none := by
    unfold get_student_by_id
    rcases hmiss with h | h
    · rw [h]
      simp
    · split
      · rw [List.find?_eq_none.mpr]
        intro s hs
        simpa using h s hs
      · rfl
  unfold get_current_student jwt_decode
  rw [if_neg (by rw [hsig]; exact fun hne => hne rfl), if_neg hexp]
  simp only [hsub, hemail]
  rw [if_pos hvalid, hnone]

/-- Concrete instance of claim C10: a well-signed unexpired token with a
validated email whose subject is not a well-formed object id is rejected. -/
theorem claim10_unknown_subject_rejected_check :
    get_current_student (fun e => e == "a@x.com")
      ⟨⟨some "z", some "a@x.com"⟩, 5, "k"⟩ "k" 0 [] =
      Except.error credentials_exception :=
  claim10_unknown_subject_rejected (fun e => e == "a@x.com")
    ⟨⟨some "z", some "a@x.com"⟩, 5, "k"⟩ "k" 0 [] "z" "a@x.com"
    rfl (by decide) rfl rfl (by decide) (Or.inl (by decide))

/-- Claim C1 (code bug): GET /api/tests/levels is dispatched, by
first-match-wins over the route registration order, to the earlier
/api/tests/{track} route with track bound to "levels", and that handler
answers 404 Unknown track; the dedicated levels route pattern does match the
path but is registered later and is never reached, so an authenticated
request gets a 404 error instead of the 200 levels response. -/
theorem claim1_tests_levels_route_shadowed :
    dispatchGet ["api", "tests", "levels"] =
      some (GetHandler.testQuestions, [("track", "levels")]) ∧
    get_test_questions "levels" = Except.error ⟨404, "Unknown track", none⟩ ∧
    matchSegs [Seg.lit "api", Seg.lit "tests", Seg.lit "levels"]
      ["api", "tests", "levels"] = some [] ∧
    GET_ROUTES.indexOf (GetHandler.testQuestions,
        [Seg.lit "api", Seg.lit "tests", Seg.param "track"]) <
      GET_ROUTES.indexOf (GetHandler.levels,
        [Seg.lit "api", Seg.lit "tests", Seg.lit "levels"]) := by
  refine ⟨by decide, rfl, by decide, by decide⟩

end SkillDev
